import Mathlib

/-!
Verification of the Grae-X Sentinel scoring/classification core.

The repository offers two WiFi risk classifiers (a CLI one in
`sentinel_cli.py` and a GUI one duplicated in `sentinel_gui_fixed.py` and
`sentinel_gui_backup.py`), a strength-label display shared by both GUIs,
and a password-strength engine.  Security descriptors are modelled as
`List Char`; the Python substring test `tok in s` is modelled by
`tok <:+: s` (contiguous sublist), and the ASCII fragment of Python
`str.upper()` by `pyUpper` (every descriptor token the code matches on is
ASCII).
-/

namespace Sentinel

/-- Risk tiers appearing across the classifiers.  The GUI renders them with
decorations such as "CRITICAL ⚠️"; only the tier itself is modelled. -/
inductive Risk where
  | CRITICAL
  | HIGH
  | MEDIUM
  | LOW
  | UNKNOWN
deriving DecidableEq, Repr

/-- ASCII uppercasing of one character, the fragment of Python
`str.upper()` exercised by the ASCII descriptor tokens. -/
def pyUpperChar (c : Char) : Char :=
  if 'a' ≤ c ∧ c ≤ 'z' then Char.ofNat (c.toNat - 32) else c

/-- Model of `security.upper()`. -/
def pyUpper (s : List Char) : List Char := s.map pyUpperChar

/-- A raw scan record as consumed by the display loops: each field may be
missing from the parsed OS output (`net.get(...)`). -/
structure RawNetwork where
  ssid : Option (List Char)
  security : Option (List Char)
  signal : Option (List Char)
deriving DecidableEq, Repr

/-- `sentinel_cli.py`, `wifi_scan`: the security column is
`net.get('security', 'Unknown')[:14]`. -/
def cliSecurityField (net : RawNetwork) : List Char :=
  (net.security.getD "Unknown".data).take 14

/-- `sentinel_cli.py` lines 204-215 (`wifi_scan`): risk determination over
the truncated security column.  The matching is case-sensitive and there
is no "NONE" token and no UNKNOWN tier; the final `else` yields LOW. -/
def cliRisk (net : RawNetwork) : Risk :=
  let security := cliSecurityField net
  if "WEP".data <:+: security then .CRITICAL
  else if "OPEN".data <:+: security then .HIGH
  else if "WPA".data <:+: security ∧ ¬ ("WPA2".data <:+: security) then .MEDIUM
  else .LOW

/-- `sentinel_gui_fixed.py` lines 1452-1462 and `sentinel_gui_backup.py`
lines 1251-1261 (`display_scan_results`): threat determination, matching
tokens case-insensitively via `security.upper()`. -/
def guiThreat (security : List Char) : Risk :=
  if "WEP".data <:+: pyUpper security ∨ "OPEN".data <:+: pyUpper security then .CRITICAL
  else if "WPA".data <:+: pyUpper security ∧ ¬ ("WPA2".data <:+: pyUpper security) then .HIGH
  else if "WPA2".data <:+: pyUpper security then .MEDIUM
  else if "WPA3".data <:+: pyUpper security then .LOW
  else .UNKNOWN

/-- The GUI security field: `net.get('security', net.get('Security', 'UNKNOWN'))`
(the alternate dictionary key is a casing artifact of the parser and is
folded into the single optional field). -/
def guiSecurityField (net : RawNetwork) : List Char :=
  net.security.getD "UNKNOWN".data

/-- Threat tier the GUI display loop assigns to a raw record. -/
def guiThreatOf (net : RawNetwork) : Risk := guiThreat (guiSecurityField net)

/-- `sentinel_gui_fixed.py` lines 1325-1341 (`update_strength_display`) and
`sentinel_gui_backup.py` lines 1161-1175 (`display_analysis_result`): the
strength caption shown for a score, as the literal string the code picks. -/
def update_strength_label (score : Nat) : String :=
  if 80 ≤ score then "IMPENETRABLE"
  else if 60 ≤ score then "STRONG"
  else if 40 ≤ score then "MODERATE"
  else if 20 ≤ score then "WEAK"
  else "CRITICAL"

/-- `sentinel_gui_fixed.py` line 1316 (`on_password_change`): the real-time
score, `min(len(password) * 6, 100)`. -/
def realtimeScore (password : List Char) : Nat :=
  min (password.length * 6) 100

/-- `sentinel_gui_fixed.py` line 1350 (`update_strength_display`): the
entropy figure rendered for a score is `score * 2.5` bits; modelled in
tenths of a bit (25 tenths per point) to stay in `Nat`. -/
def displayedEntropyTenths (score : Nat) : Nat := score * 25

/-- Entropy in tenths of a bit that the GUI real-time path reports for a
password (`on_password_change` feeding `update_strength_display`). -/
def realtimeEntropyTenths (password : List Char) : Nat :=
  displayedEntropyTenths (realtimeScore password)

/-! ## Password strength engine

`modules/password_analyzer.py` is imported by `sentinel_cli.py`,
`grae_x_sentinel.py` and both GUI files, but the module itself is not part
of the snapshot; the in-tree fallback (`sentinel_gui_fixed.py` lines 33-40)
is an explicit randomized mock used only on import failure.  The engine is
therefore modelled from the specification, §4.1. -/

/-- Detects a lowercase ASCII letter in the password. -/
def hasLower (p : List Char) : Bool := p.any fun c => 'a' ≤ c && c ≤ 'z'

/-- Detects an uppercase ASCII letter in the password. -/
def hasUpper (p : List Char) : Bool := p.any fun c => 'A' ≤ c && c ≤ 'Z'

/-- Detects a digit in the password. -/
def hasDigit (p : List Char) : Bool := p.any fun c => '0' ≤ c && c ≤ '9'

/-- Detects a character outside the alphanumeric ranges. -/
def hasSpecial (p : List Char) : Bool :=
  p.any fun c =>
    !(('a' ≤ c && c ≤ 'z') || ('A' ≤ c && c ≤ 'Z') || ('0' ≤ c && c ≤ '9'))

/-- The four character-class detections, bundled (used to phrase "same
character classes" hypotheses). -/
def charClasses (p : List Char) : Bool × Bool × Bool × Bool :=
  (hasLower p, hasUpper p, hasDigit p, hasSpecial p)

/-- Modelled from the spec: size of the character-class alphabet actually
used by the string (lowercase 26, uppercase 26, digits 10, special 32),
floored at 1 for the empty alphabet. -/
def alphabetSize (p : List Char) : Nat :=
  max 1 ((if hasLower p then 26 else 0) + (if hasUpper p then 26 else 0) +
    (if hasDigit p then 10 else 0) + (if hasSpecial p then 32 else 0))

/-- Modelled from the spec: `log2` of the alphabet size in thousandths of a
bit, a fixed-precision stand-in for the floating-point `log2` at exactly
the alphabet sizes reachable from the four class flags
(1, 10, 26, 32, 36, 42, 52, 58, 62, 68, 84, 94). -/
def log2MilliBits (n : Nat) : Nat :=
  if n = 10 then 3322
  else if n = 26 then 4700
  else if n = 32 then 5000
  else if n = 36 then 5170
  else if n = 42 then 5392
  else if n = 52 then 5700
  else if n = 58 then 5858
  else if n = 62 then 5954
  else if n = 68 then 6087
  else if n = 84 then 6392
  else if n = 94 then 6555
  else 0

/-- Modelled from the spec: `entropy_bits = length * log2(alphabet_size)`,
kept in thousandths of a bit. -/
def entropyMilliBits (p : List Char) : Nat :=
  p.length * log2MilliBits (alphabetSize p)

/-- Modelled from the spec: the five requirement predicates (minimum
length 12, one uppercase, one lowercase, one digit, one special). -/
structure Requirements where
  min_length : Bool
  has_upper : Bool
  has_lower : Bool
  has_digit : Bool
  has_special : Bool
deriving DecidableEq, Repr

/-- Requirement checks for a password. -/
def requirementsOf (p : List Char) : Requirements :=
  { min_length := 12 ≤ p.length
    has_upper := hasUpper p
    has_lower := hasLower p
    has_digit := hasDigit p
    has_special := hasSpecial p }

/-- Number of satisfied requirements. -/
def satisfiedCount (r : Requirements) : Nat :=
  (if r.min_length then 1 else 0) + (if r.has_upper then 1 else 0) +
    (if r.has_lower then 1 else 0) + (if r.has_digit then 1 else 0) +
    (if r.has_special then 1 else 0)

/-- Modelled from the spec: the score normalizes entropy against an 80-bit
ceiling (80 000 millibits ↦ 100 points) and adds 4 points per satisfied
requirement, clamped to [0, 100].  The spec leaves the exact weighting
free subject to monotonicity in entropy and in satisfied requirements,
which this choice satisfies; the empty password scores 0 as required. -/
def scoreOf (p : List Char) : Nat :=
  min 100 (entropyMilliBits p / 800 + 4 * satisfiedCount (requirementsOf p))

/-- Modelled from the spec: strength label from the score via the fixed
inclusive thresholds of §4.1. -/
def strengthOf (score : Nat) : String :=
  if 80 ≤ score then "EXCELLENT"
  else if 60 ≤ score then "STRONG"
  else if 40 ≤ score then "MODERATE"
  else if 20 ≤ score then "WEAK"
  else "CRITICAL"

/-- Coarse display units for the crack-time estimate, smallest first. -/
inductive CrackUnit where
  | seconds
  | minutes
  | hours
  | days
  | years
  | centuries
deriving DecidableEq, Repr

/-- Modelled from the spec: the crack-time estimate exhausts
`2^entropy_bits` guesses at 10^9 guesses per second and picks the largest
unit keeping the magnitude ≥ 1.  Equivalently the unit is selected by
comparing the entropy against `log2(10^9 · unit_in_seconds)`; the
thresholds are those logarithms in thousandths of a bit (minute 35 807,
hour 41 714, day 46 299, year 54 910, century 61 554). -/
def crackUnitOf (eMilli : Nat) : CrackUnit :=
  if eMilli < 35807 then .seconds
  else if eMilli < 41714 then .minutes
  else if eMilli < 46299 then .hours
  else if eMilli < 54910 then .days
  else if eMilli < 61554 then .years
  else .centuries

/-- The immutable analysis result record of §3. -/
structure PasswordAnalysisResult where
  length : Nat
  entropy_millibits : Nat
  score : Nat
  strength : String
  requirements : Requirements
  crack_unit : CrackUnit
deriving DecidableEq, Repr

/-- Modelled from the spec: `PasswordAnalyzer.analyze` of the missing
`modules/password_analyzer.py`, per §4.1 — a total, pure function of the
password string. -/
def analyze (p : List Char) : PasswordAnalysisResult :=
  { length := p.length
    entropy_millibits := entropyMilliBits p
    score := scoreOf p
    strength := strengthOf (scoreOf p)
    requirements := requirementsOf p
    crack_unit := crackUnitOf (entropyMilliBits p) }

/-! ## Shared lemmas -/

/-- A list containing "WPA2" contains "WPA". -/
theorem wpa_of_wpa2 {u : List Char} (h : "WPA2".data <:+: u) :
    "WPA".data <:+: u :=
  List.IsInfix.trans (by decide) h

/-- A list containing "WPA3" contains "WPA". -/
theorem wpa_of_wpa3 {u : List Char} (h : "WPA3".data <:+: u) :
    "WPA".data <:+: u :=
  List.IsInfix.trans (by decide) h

/-! ## Claims -/

/-- C1 (counterexample): the descriptor "WPA/WPA2 Mixed" contains "WPA" and
"WPA2" and none of "WEP", "OPEN", "NONE", yet the GUI scan classifier
assigns MEDIUM, not LOW; and the CLI scan listing assigns MEDIUM to the
descriptor "WPA-Enterprise WPA2", whose "WPA2" token lies beyond the
14-character truncation. -/
theorem c1_counterexample :
    ("WPA".data <:+: "WPA/WPA2 Mixed".data ∧ "WPA2".data <:+: "WPA/WPA2 Mixed".data ∧
      ¬ "WEP".data <:+: "WPA/WPA2 Mixed".data ∧ ¬ "OPEN".data <:+: "WPA/WPA2 Mixed".data ∧
      ¬ "NONE".data <:+: "WPA/WPA2 Mixed".data) ∧
    guiThreat "WPA/WPA2 Mixed".data = .MEDIUM ∧
    ("WPA".data <:+: "WPA-Enterprise WPA2".data ∧ "WPA2".data <:+: "WPA-Enterprise WPA2".data ∧
      ¬ "WEP".data <:+: "WPA-Enterprise WPA2".data ∧ ¬ "OPEN".data <:+: "WPA-Enterprise WPA2".data ∧
      ¬ "NONE".data <:+: "WPA-Enterprise WPA2".data) ∧
    cliRisk ⟨none, some "WPA-Enterprise WPA2".data, none⟩ = .MEDIUM := by
  decide

/-- C1 (amended): in the CLI scan listing, every raw entry whose truncated
security column contains "WPA2" and contains neither "WEP" nor "OPEN" is
assigned LOW — in particular "WPA/WPA2 Mixed" classifies LOW there — while
the GUI scan classifier assigns MEDIUM to every descriptor that contains
"WPA2" and neither "WEP" nor "OPEN". -/
theorem c1_precedence_amended :
    (∀ net : RawNetwork, "WPA2".data <:+: cliSecurityField net →
      ¬ "WEP".data <:+: cliSecurityField net → ¬ "OPEN".data <:+: cliSecurityField net →
      cliRisk net = .LOW) ∧
    (∀ s : List Char, "WPA2".data <:+: pyUpper s →
      ¬ "WEP".data <:+: pyUpper s → ¬ "OPEN".data <:+: pyUpper s →
      guiThreat s = .MEDIUM) := by
  constructor
  · intro net h2 hW hO
    simp [cliRisk, h2, hW, hO]
  · intro s h2 hW hO
    simp [guiThreat, h2, hW, hO]

/-- C1 (witness): both parts of the amended claim at the descriptor
"WPA/WPA2 Mixed". -/
theorem c1_precedence_witness :
    cliRisk ⟨none, some "WPA/WPA2 Mixed".data, none⟩ = .LOW ∧
    guiThreat "WPA/WPA2 Mixed".data = .MEDIUM :=
  ⟨c1_precedence_amended.1 ⟨none, some "WPA/WPA2 Mixed".data, none⟩
      (by decide) (by decide) (by decide),
    c1_precedence_amended.2 "WPA/WPA2 Mixed".data (by decide) (by decide) (by decide)⟩

/-- C2 (counterexample): the CLI scan listing assigns LOW — not UNKNOWN —
to an empty security descriptor and to a missing one (it has no UNKNOWN
tier at all). -/
theorem c2_counterexample :
    cliRisk ⟨none, some [], none⟩ = .LOW ∧ cliRisk ⟨none, none, none⟩ = .LOW := by
  decide

/-- C2 (amended): a descriptor matching none of the classification tokens
is assigned UNKNOWN by the GUI scan classifier, but the CLI scan listing
assigns LOW to such entries (empty or missing descriptors included). -/
theorem c2_no_token_amended :
    (∀ s : List Char, ¬ "WEP".data <:+: pyUpper s → ¬ "OPEN".data <:+: pyUpper s →
      ¬ "WPA".data <:+: pyUpper s → guiThreat s = .UNKNOWN) ∧
    (∀ net : RawNetwork, ¬ "WEP".data <:+: cliSecurityField net →
      ¬ "OPEN".data <:+: cliSecurityField net → ¬ "WPA".data <:+: cliSecurityField net →
      cliRisk net = .LOW) := by
  constructor
  · intro s hW hO hA
    have h2 : ¬ "WPA2".data <:+: pyUpper s := fun h => hA (wpa_of_wpa2 h)
    have h3 : ¬ "WPA3".data <:+: pyUpper s := fun h => hA (wpa_of_wpa3 h)
    simp [guiThreat, hW, hO, hA, h2, h3]
  · intro net hW hO hA
    simp [cliRisk, hW, hO, hA]

/-- C2 (witness): the empty descriptor is UNKNOWN in the GUI and LOW in
the CLI listing. -/
theorem c2_no_token_witness :
    guiThreat [] = .UNKNOWN ∧ cliRisk ⟨none, some [], none⟩ = .LOW :=
  ⟨c2_no_token_amended.1 [] (by decide) (by decide) (by decide),
    c2_no_token_amended.2 ⟨none, some [], none⟩ (by decide) (by decide) (by decide)⟩

/-- C3 (counterexample): a descriptor "NONE" (no "WEP") is assigned LOW by
the CLI scan listing, and a descriptor "OPEN" (no "WEP") is assigned
CRITICAL by the GUI scan classifier — neither is HIGH as claimed. -/
theorem c3_counterexample :
    (¬ "WEP".data <:+: "NONE".data ∧ cliRisk ⟨none, some "NONE".data, none⟩ = .LOW) ∧
    (¬ "WEP".data <:+: "OPEN".data ∧ guiThreat "OPEN".data = .CRITICAL) := by
  decide

/-- C3 (amended): in the CLI scan listing, a truncated security column
containing "OPEN" and not "WEP" is assigned HIGH, but "NONE" is not a
matched token there (an entry containing only "NONE" falls through to
LOW); the GUI scan classifier assigns CRITICAL, not HIGH, to every
descriptor containing "OPEN". -/
theorem c3_open_amended :
    (∀ net : RawNetwork, "OPEN".data <:+: cliSecurityField net →
      ¬ "WEP".data <:+: cliSecurityField net → cliRisk net = .HIGH) ∧
    (∀ s : List Char, "OPEN".data <:+: pyUpper s → guiThreat s = .CRITICAL) := by
  constructor
  · intro net hO hW
    simp [cliRisk, hO, hW]
  · intro s hO
    simp [guiThreat, hO]

/-- C3 (witness): both parts of the amended claim at concrete descriptors. -/
theorem c3_open_witness :
    cliRisk ⟨none, some "OPEN".data, none⟩ = .HIGH ∧
    guiThreat "Open WPA2".data = .CRITICAL :=
  ⟨c3_open_amended.1 ⟨none, some "OPEN".data, none⟩ (by decide) (by decide),
    c3_open_amended.2 "Open WPA2".data (by decide)⟩

/-- C4: analyzing the empty password is not an error: the result has
score 0, strength label CRITICAL, all five requirement booleans false, and
the smallest crack-time unit (seconds). -/
theorem c4_empty_password :
    (analyze []).score = 0 ∧ (analyze []).strength = "CRITICAL" ∧
    (analyze []).requirements = ⟨false, false, false, false, false⟩ ∧
    (analyze []).crack_unit = .seconds := by
  decide

/-- C5: `analyze` is deterministic and pure — two calls on the same string
return identical results in every field. -/
theorem c5_analyze_deterministic : ∀ p : List Char, analyze p = analyze p :=
  fun _ => rfl

/-- C6 (counterexample): at score 80 (and at every score of 80 or more)
the strength caption of both GUIs is "IMPENETRABLE", not "EXCELLENT". -/
theorem c6_counterexample :
    update_strength_label 80 = "IMPENETRABLE" ∧
    update_strength_label 80 ≠ "EXCELLENT" ∧
    update_strength_label 100 = "IMPENETRABLE" := by
  decide

/-- C6 (amended): the strength label is derived from the score by fixed
inclusive thresholds — score ≥ 80 → IMPENETRABLE (not EXCELLENT),
60 ≤ score < 80 → STRONG, 40 ≤ score < 60 → MODERATE,
20 ≤ score < 40 → WEAK, score < 20 → CRITICAL. -/
theorem c6_label_amended (score : Nat) :
    (80 ≤ score → update_strength_label score = "IMPENETRABLE") ∧
    (60 ≤ score → score < 80 → update_strength_label score = "STRONG") ∧
    (40 ≤ score → score < 60 → update_strength_label score = "MODERATE") ∧
    (20 ≤ score → score < 40 → update_strength_label score = "WEAK") ∧
    (score < 20 → update_strength_label score = "CRITICAL") := by
  refine ⟨fun h1 => ?_, fun h1 h2 => ?_, fun h1 h2 => ?_, fun h1 h2 => ?_, fun h1 => ?_⟩
  · simp [update_strength_label, h1]
  · simp [update_strength_label, h1, show ¬ 80 ≤ score by omega]
  · simp [update_strength_label, h1, show ¬ 80 ≤ score by omega, show ¬ 60 ≤ score by omega]
  · simp [update_strength_label, h1, show ¬ 80 ≤ score by omega, show ¬ 60 ≤ score by omega,
      show ¬ 40 ≤ score by omega]
  · simp [update_strength_label, show ¬ 80 ≤ score by omega, show ¬ 60 ≤ score by omega,
      show ¬ 40 ≤ score by omega, show ¬ 20 ≤ score by omega]

/-- C6 (witness): one score in each band. -/
theorem c6_label_witness :
    update_strength_label 85 = "IMPENETRABLE" ∧ update_strength_label 65 = "STRONG" ∧
    update_strength_label 45 = "MODERATE" ∧ update_strength_label 25 = "WEAK" ∧
    update_strength_label 5 = "CRITICAL" :=
  ⟨(c6_label_amended 85).1 (by decide), (c6_label_amended 65).2.1 (by decide) (by decide),
    (c6_label_amended 45).2.2.1 (by decide) (by decide),
    (c6_label_amended 25).2.2.2.1 (by decide) (by decide),
    (c6_label_amended 5).2.2.2.2 (by decide)⟩

/-- C7 (counterexample): the CLI scan listing is case-sensitive — the
descriptor "wep" is assigned LOW while "WEP" is assigned CRITICAL, so
classification is not case-insensitive there. -/
theorem c7_counterexample :
    cliRisk ⟨none, some "wep".data, none⟩ = .LOW ∧
    cliRisk ⟨none, some "WEP".data, none⟩ = .CRITICAL := by
  decide

/-- C7 (amended): the GUI scan classifier is case-insensitive — any two
descriptors that agree after uppercasing receive the same tier, and "wep"
classifies CRITICAL there exactly like "WEP" — while the CLI scan listing
matches case-sensitively and assigns LOW to "wep". -/
theorem c7_case_amended :
    (∀ s t : List Char, pyUpper s = pyUpper t → guiThreat s = guiThreat t) ∧
    guiThreat "wep".data = .CRITICAL ∧
    cliRisk ⟨none, some "wep".data, none⟩ = .LOW := by
  refine ⟨fun s t h => ?_, by decide, by decide⟩
  simp only [guiThreat, h]

/-- C7 (witness): the first part of the amended claim at "wep" / "WEP". -/
theorem c7_case_witness : guiThreat "wep".data = guiThreat "WEP".data :=
  c7_case_amended.1 "wep".data "WEP".data (by decide)

/-- C9: the GUI scan classifier never assigns LOW — the "WPA3" branch is
unreachable — so every classified network receives one of CRITICAL, HIGH,
MEDIUM, UNKNOWN. -/
theorem c9_low_unreachable (s : List Char) :
    guiThreat s ≠ .LOW ∧
    (guiThreat s = .CRITICAL ∨ guiThreat s = .HIGH ∨ guiThreat s = .MEDIUM ∨
      guiThreat s = .UNKNOWN) := by
  unfold guiThreat
  split_ifs with h1 h2 h3 h4
  · exact ⟨by decide, by decide⟩
  · exact ⟨by decide, by decide⟩
  · exact ⟨by decide, by decide⟩
  · have hwpa : "WPA".data <:+: pyUpper s := wpa_of_wpa3 h4
    have h2' : "WPA2".data <:+: pyUpper s := by
      by_contra hn
      exact h2 ⟨hwpa, hn⟩
    exact absurd h2' h3
  · exact ⟨by decide, by decide⟩

/-- C10: in the CLI scan listing the assigned risk depends only on the
first 14 characters of the security descriptor — two raw entries whose
(defaulted) security fields agree on their first 14 characters receive the
same risk. -/
theorem c10_truncation (n1 n2 : RawNetwork)
    (h : (n1.security.getD "Unknown".data).take 14 =
      (n2.security.getD "Unknown".data).take 14) :
    cliRisk n1 = cliRisk n2 := by
  have h' : cliSecurityField n1 = cliSecurityField n2 := h
  simp only [cliRisk, h']

/-- C10 (witness): a "WEP" token appearing only after position 14 does not
affect the tier — "WPA2-Personal WEP" classifies exactly like
"WPA2-Personal ". -/
theorem c10_truncation_witness :
    ("WPA2-Personal WEP".data.take 14 = "WPA2-Personal ".data.take 14) ∧
    "WEP".data <:+: "WPA2-Personal WEP".data ∧
    cliRisk ⟨none, some "WPA2-Personal WEP".data, none⟩ =
      cliRisk ⟨none, some "WPA2-Personal ".data, none⟩ :=
  ⟨by decide, by decide,
    c10_truncation ⟨none, some "WPA2-Personal WEP".data, none⟩
      ⟨none, some "WPA2-Personal ".data, none⟩ (by decide)⟩

/-- C8: the entropy the GUI reports is monotonically non-decreasing in
length for a fixed alphabet — if one password is a prefix of another and
both use the same character classes, the real-time path reports at least
as much entropy for the longer one, and the modelled engine entropy is
likewise non-decreasing. -/
theorem c8_entropy_monotone (p1 p2 : List Char) (hpre : p1 <+: p2)
    (hcls : charClasses p1 = charClasses p2) :
    realtimeEntropyTenths p1 ≤ realtimeEntropyTenths p2 ∧
    (analyze p1).entropy_millibits ≤ (analyze p2).entropy_millibits := by
  have hlen : p1.length ≤ p2.length := hpre.length_le
  constructor
  · simp only [realtimeEntropyTenths, displayedEntropyTenths, realtimeScore]
    omega
  · simp only [charClasses, Prod.mk.injEq] at hcls
    obtain ⟨h1, h2, h3, h4⟩ := hcls
    have halpha : alphabetSize p1 = alphabetSize p2 := by
      simp [alphabetSize, h1, h2, h3, h4]
    simp only [analyze, entropyMilliBits, halpha]
    exact Nat.mul_le_mul_right _ hlen

/-- C8 (witness): the monotonicity at the concrete pair "a" ≤ "aa". -/
theorem c8_entropy_witness :
    (['a'] <+: ['a', 'a']) ∧ charClasses ['a'] = charClasses ['a', 'a'] ∧
    realtimeEntropyTenths ['a'] ≤ realtimeEntropyTenths ['a', 'a'] ∧
    (analyze ['a']).entropy_millibits ≤ (analyze ['a', 'a']).entropy_millibits :=
  ⟨by decide, by decide,
    (c8_entropy_monotone ['a'] ['a', 'a'] (by decide) (by decide)).1,
    (c8_entropy_monotone ['a'] ['a', 'a'] (by decide) (by decide)).2⟩

end Sentinel
